import Mathlib

/-!
Verification of the request/response translation core of an
OpenAI-to-Replicate proxy.  The repository ships four near-duplicate
deployment variants of the same program:

* the simple Node server (`src/index.js`),
* the logging Node server (first document of `src/unnamed/part_001`),
* the detailed Cloudflare worker (second document of `src/unnamed/part_001`,
  with `pollCount` bookkeeping and poll-response status checks),
* the minimal Cloudflare worker (third document of `src/unnamed/part_001`).

Every definition below is a shallow embedding of one of those JavaScript
functions; doc comments name the embedded function and variant.  JavaScript
truthiness on the fields the code actually tests is made explicit
(`Option` for absent values, empty string falsy); wall-clock sleeps in the
poll loop are counted rather than performed; `id`/`created` timestamp fields
and the constant zero `usage` block of response envelopes are elided, being
time-dependent or constant.
-/

namespace ReplicateProxy

/-- One chat message, `{role, content}`, as destructured by
`convertMessagesToPrompt`. -/
structure Message where
  role : String
  content : String
deriving Repr, DecidableEq

/-- The backend `output` value: either an array of string fragments or a
single string (`Array.isArray(replicateOutput) ? replicateOutput.join('') :
replicateOutput`). -/
inductive ReplicateOutput where
  | arr (fragments : List String)
  | str (text : String)
deriving Repr, DecidableEq

/-- `Array.isArray(output) ? output.join('') : output` — normalise the
backend output to a single string. -/
def joinOutput : ReplicateOutput → String
  | .arr fragments => String.join fragments
  | .str text => text

/-- JavaScript `String.prototype.trim()`: drop leading and trailing
whitespace (embedded over the character list so that it evaluates by
kernel reduction). -/
def strTrim (s : String) : String :=
  ⟨((s.toList.dropWhile Char.isWhitespace).reverse.dropWhile
      Char.isWhitespace).reverse⟩

/-- `convertMessagesToPrompt` (identical in all four variants): fold over the
messages, appending a role-tagged line for system/user/assistant roles and
skipping any other role, then append the generation cue. -/
def convertMessagesToPrompt (messages : List Message) : String :=
  (messages.foldl (fun prompt message =>
    if message.role = "system" then prompt ++ ("System: " ++ message.content ++ "\n\n")
    else if message.role = "user" then prompt ++ ("Human: " ++ message.content ++ "\n\n")
    else if message.role = "assistant" then prompt ++ ("Assistant: " ++ message.content ++ "\n\n")
    else prompt) "") ++ "Assistant: "

/-- Spec-side rendering of a single message, following the specification's
words: role=system emits `"System: {content}\n\n"`, role=user emits
`"Human: {content}\n\n"`, role=assistant emits `"Assistant: {content}\n\n"`,
any other role contributes nothing. -/
def renderMessageSpec (m : Message) : String :=
  if m.role = "system" then "System: " ++ m.content ++ "\n\n"
  else if m.role = "user" then "Human: " ++ m.content ++ "\n\n"
  else if m.role = "assistant" then "Assistant: " ++ m.content ++ "\n\n"
  else ""

/-- Spec-side prompt: the concatenation, in message order, of the rendered
messages (before the final `"Assistant: "` cue). -/
def promptSpec : List Message → String
  | [] => ""
  | m :: rest => renderMessageSpec m ++ promptSpec rest

theorem string_append_empty (s : String) : s ++ "" = s := by
  apply String.toList_inj.mp
  simp

theorem string_append_assoc (a b c : String) : a ++ b ++ c = a ++ (b ++ c) := by
  apply String.toList_inj.mp
  simp

theorem convertMessagesToPrompt_foldl (messages : List Message) (acc : String) :
    messages.foldl (fun prompt message =>
      if message.role = "system" then prompt ++ ("System: " ++ message.content ++ "\n\n")
      else if message.role = "user" then prompt ++ ("Human: " ++ message.content ++ "\n\n")
      else if message.role = "assistant" then prompt ++ ("Assistant: " ++ message.content ++ "\n\n")
      else prompt) acc = acc ++ promptSpec messages := by
  induction messages generalizing acc with
  | nil => simp [promptSpec, string_append_empty]
  | cons m rest ih =>
    have hstep : (if m.role = "system" then acc ++ ("System: " ++ m.content ++ "\n\n")
        else if m.role = "user" then acc ++ ("Human: " ++ m.content ++ "\n\n")
        else if m.role = "assistant" then acc ++ ("Assistant: " ++ m.content ++ "\n\n")
        else acc) = acc ++ renderMessageSpec m := by
      unfold renderMessageSpec
      split
      · rfl
      · split
        · rfl
        · split
          · rfl
          · exact (string_append_empty acc).symm
    simp only [List.foldl_cons, hstep, ih, promptSpec]
    exact string_append_assoc acc (renderMessageSpec m) (promptSpec rest)

/-- C4: the Prompt Compiler produces exactly the in-order concatenation of
the role-tagged renderings (other roles contributing nothing) followed by
the literal suffix `"Assistant: "`; in particular a single user message
"hi" compiles to `"Human: hi\n\nAssistant: "`. -/
theorem prompt_compiler_spec (messages : List Message) :
    convertMessagesToPrompt messages = promptSpec messages ++ "Assistant: " ∧
    convertMessagesToPrompt [⟨"user", "hi"⟩] = "Human: hi\n\nAssistant: " := by
  constructor
  · unfold convertMessagesToPrompt
    rw [convertMessagesToPrompt_foldl]
    rfl
  · decide

/-! ## Error envelopes, payloads, and the model resolver -/

/-- The `{message, type, code}` object placed under the `error` key of an
error envelope. -/
structure ErrorInfo where
  message : String
  type : String
  code : String
deriving Repr, DecidableEq

def missingFieldsChatError : ErrorInfo :=
  ⟨"Missing required fields: model and messages are required",
   "invalid_request_error", "missing_required_fields"⟩

def missingFieldsCompletionError : ErrorInfo :=
  ⟨"Missing required fields: model and prompt are required",
   "invalid_request_error", "missing_required_fields"⟩

def upstreamErrorEnv : ErrorInfo :=
  ⟨"Replicate API error", "upstream_error", "replicate_error"⟩

def internalErrorEnv : ErrorInfo :=
  ⟨"Internal server error", "server_error", "internal_error"⟩

def notConfiguredErrorEnv : ErrorInfo :=
  ⟨"Proxy API key not configured", "configuration_error", "missing_api_key"⟩

def invalidAuthHeaderErrorEnv : ErrorInfo :=
  ⟨"Missing or invalid authorization header", "authentication_error", "invalid_api_key"⟩

def invalidKeyErrorEnv : ErrorInfo :=
  ⟨"Invalid API key", "authentication_error", "invalid_api_key"⟩

def notFoundErrorEnv : ErrorInfo :=
  ⟨"Not found", "invalid_request_error", "not_found"⟩

/-- The body of an outbound HTTP response: an error envelope, or one of the
three success shapes.  Each success shape records the echoed `model` field
(`Option` because the simple variants never validate its presence) and the
`content`/`text` of the single choice; `id`, `created` and the constant
zeroed `usage` block are elided (time-dependent or constant). -/
inductive Payload where
  | errorEnv (e : ErrorInfo)
  | chat (model : Option String) (content : String)
  | chunk (model : Option String) (content : String)
  | text (model : Option String) (content : String)
deriving Repr, DecidableEq

/-- Echoed `model` field of a payload (`none` for error envelopes). -/
def payloadModel : Payload → Option (Option String)
  | .errorEnv _ => none
  | .chat m _ => some m
  | .chunk m _ => some m
  | .text m _ => some m

/-- An outbound response: status code plus payload. -/
structure HttpOut where
  status : Nat
  payload : Payload
deriving Repr, DecidableEq

/-- JavaScript truthiness of an optional string field: `undefined` and the
empty string are falsy. -/
def optStrTruthy : Option String → Bool
  | none => false
  | some s => s ≠ ""

/-- JavaScript truthiness of the `messages` field: only `undefined` is
falsy — an array is truthy even when empty. -/
def optMessagesTruthy : Option (List Message) → Bool
  | none => false
  | some _ => true

/-- First-match association-list lookup, embedding property access on the
JavaScript object literal `MODEL_MAPPINGS` (whose keys are unique). -/
def lookupMapping : List (String × String) → String → Option String
  | [], _ => none
  | (k, v) :: rest, m => if k = m then some v else lookupMapping rest m

/-- `MODEL_MAPPINGS[model] || DEFAULT_MODEL` — the Model Resolver.  The `||`
falls back to the default both when the key is absent and when the mapped
value is the (falsy) empty string. -/
def resolveModel (mappings : List (String × String)) (defaultModel : String)
    (model : String) : String :=
  match lookupMapping mappings model with
  | some v => if v = "" then defaultModel else v
  | none => defaultModel

/-- The hardcoded `MODEL_MAPPINGS` object of both Cloudflare worker
variants. -/
def MODEL_MAPPINGS : List (String × String) :=
  [("gpt-3.5-turbo", "meta/llama-2-7b-chat"),
   ("gpt-3.5-turbo-16k", "meta/llama-2-7b-chat"),
   ("gpt-4", "meta/llama-2-70b-chat"),
   ("gpt-4-turbo", "meta/llama-2-70b-chat"),
   ("gpt-4-turbo-preview", "meta/llama-2-70b-chat"),
   ("gpt-4-32k", "meta/llama-2-70b-chat"),
   ("text-davinci-003", "meta/llama-2-7b-chat"),
   ("text-davinci-002", "meta/llama-2-7b-chat"),
   ("text-curie-001", "meta/llama-2-7b-chat"),
   ("text-babbage-001", "meta/llama-2-7b-chat"),
   ("text-ada-001", "meta/llama-2-7b-chat")]

/-- The hardcoded `DEFAULT_MODEL` of both Cloudflare worker variants. -/
def DEFAULT_MODEL : String := "meta/llama-2-7b-chat"

/-- `formatAsOpenAIResponse` (identical in all variants): normalise the
output by joining array fragments with no separator, trim, and wrap in the
chat-completion shape echoing the given model. -/
def formatAsOpenAIResponse (replicateOutput : ReplicateOutput)
    (model : Option String) : Payload :=
  .chat model (strTrim (joinOutput replicateOutput))

/-! ## The submit-then-poll Backend Invoker (`callReplicateAPI`) -/

/-- A prediction object as parsed from a backend JSON body:
`{id, status, output?, error?}`.  The `error` field is the string that the
code interpolates into its thrown message. -/
structure Prediction where
  id : String
  status : String
  output : Option ReplicateOutput
  error : String
deriving Repr, DecidableEq

/-- One backend HTTP response: status code, parsed JSON body, and raw text
(the detailed variant interpolates `await response.text()` into its
submission error message). -/
structure HttpResp where
  status : Nat
  body : Prediction
  text : String
deriving Repr, DecidableEq

/-- `response.ok`: status in the 2xx range. -/
def respOk (r : HttpResp) : Bool := 200 ≤ r.status && r.status < 300

/-- `result.status === 'starting' || result.status === 'processing'` — the
poll loop's continuation condition. -/
def isRunning (status : String) : Bool :=
  status = "starting" || status = "processing"

/-- Result of one invocation of `callReplicateAPI`. `pending` marks the
modelling artefact of exhausting the supplied list of poll responses while
the job is still non-terminal (the real loop would simply keep polling). -/
inductive InvokeResult where
  | output (o : Option ReplicateOutput)
  | err (msg : String)
  | pending
deriving Repr, DecidableEq

/-- The poll loop of the detailed worker's `callReplicateAPI`: while the
status is starting/processing, sleep 1000 ms (counted in `waits`), re-fetch
the prediction, and throw on a non-2xx poll response; on exit, a `failed`
status throws with the backend's error detail, anything else returns
`result.output`.  The list argument is the stream of poll responses the
backend will serve, consumed one per wait. -/
def pollLoopDetailed (result : Prediction) (polls : List HttpResp)
    (waits : Nat) : InvokeResult × Nat :=
  if isRunning result.status then
    match polls with
    | [] => (.pending, waits)
    | p :: rest =>
      if respOk p then pollLoopDetailed p.body rest (waits + 1)
      else (.err ("Replicate polling error: " ++ toString p.status), waits + 1)
  else if result.status = "failed" then
    (.err ("Replicate prediction failed: " ++ result.error), waits)
  else
    (.output result.output, waits)

/-- The detailed worker's `callReplicateAPI`: a non-2xx submission response
throws with the status code and response text; otherwise the parsed
prediction enters the poll loop. -/
def callReplicateAPIDetailed (submit : HttpResp) (polls : List HttpResp) :
    InvokeResult × Nat :=
  if respOk submit then pollLoopDetailed submit.body polls 0
  else (.err ("Replicate API error: " ++ toString submit.status ++ " - " ++ submit.text), 0)

/-- The poll loop of the minimal worker's `callReplicateAPI`: identical to
the detailed one except that the poll response's HTTP status is never
inspected — its parsed JSON body becomes the next prediction state
unconditionally. -/
def pollLoopMinimal (result : Prediction) (polls : List HttpResp)
    (waits : Nat) : InvokeResult × Nat :=
  if isRunning result.status then
    match polls with
    | [] => (.pending, waits)
    | p :: rest => pollLoopMinimal p.body rest (waits + 1)
  else if result.status = "failed" then
    (.err ("Replicate prediction failed: " ++ result.error), waits)
  else
    (.output result.output, waits)

/-- The minimal worker's `callReplicateAPI`: a non-2xx submission response
throws with just the status code; otherwise the parsed prediction enters
the (unchecked) poll loop. -/
def callReplicateAPIMinimal (submit : HttpResp) (polls : List HttpResp) :
    InvokeResult × Nat :=
  if respOk submit then pollLoopMinimal submit.body polls 0
  else (.err ("Replicate API error: " ++ toString submit.status), 0)

/-! ## Error classification and the request handlers -/

/-- `a` occurs at the head of `l`. -/
def listLeads : List Char → List Char → Bool
  | [], _ => true
  | _ :: _, [] => false
  | a :: as, b :: bs => a == b && listLeads as bs

/-- `s.includes(sub)` — substring test used by
`error.message.includes('Replicate')`. -/
def strContains (s sub : String) : Bool :=
  s.toList.tails.any (fun t => listLeads sub.toList t)

/-- `s.startsWith(p)` (embedded over character lists so that it evaluates
by kernel reduction). -/
def strStartsWith (s p : String) : Bool := listLeads p.toList s.toList

/-- A chat request body as destructured by `handleChatCompletions`:
`{model, messages, max_tokens = 500, temperature = 0.7, stream = false}`.
The tuning parameters are forwarded to the backend unchanged and never
branched on, so they are elided here. -/
structure ChatBody where
  model : Option String
  messages : Option (List Message)
  stream : Bool
deriving Repr, DecidableEq

/-- A legacy completion request body as destructured by
`handleCompletions`: `{model, prompt, max_tokens = 500, temperature = 0.7}`. -/
structure CompletionBody where
  model : Option String
  prompt : Option String
deriving Repr, DecidableEq

/-- `!model || !messages` — the chat validation check of the logging
variants. -/
def chatMissingFields (b : ChatBody) : Bool :=
  !optStrTruthy b.model || !optMessagesTruthy b.messages

/-- `!model || !prompt` — the legacy validation check of the logging
variants. -/
def completionMissingFields (b : CompletionBody) : Bool :=
  !optStrTruthy b.model || !optStrTruthy b.prompt

/-- The backend oracle: what `replicate.run` / `callReplicateAPI` does when
invoked with a resolved model and a prompt — either a fulfilled output
(possibly `undefined`) or a rejection carrying the error's message. -/
def Backend := String → String → Except String (Option ReplicateOutput)

/-- The record of the single backend invocation a handler performs. -/
structure BackendCall where
  model : String
  prompt : String
deriving Repr, DecidableEq

/-- A handler's observable behaviour: the response it sends plus the backend
invocation it performed, if any. -/
structure HandlerResult where
  response : HttpOut
  call : Option BackendCall
deriving Repr, DecidableEq

/-- `handleChatCompletions` of the logging Node server and of the detailed
worker (identical modelled behaviour): validate `!model || !messages` (400),
resolve the model (an absent `model` would look up the literal key
"undefined"), compile the prompt, invoke the backend once, and answer 200
(chunk shape when `stream` is truthy), or classify a caught error by
`error.message.includes('Replicate')` into 502/500.  A fulfilled but
`undefined` output makes `content.trim()` throw a TypeError (message without
"Replicate"), caught as 500. -/
def handleChatCompletionsLogging (mappings : List (String × String))
    (defaultModel : String) (body : ChatBody) (backend : Backend) :
    HandlerResult :=
  if chatMissingFields body then
    ⟨⟨400, .errorEnv missingFieldsChatError⟩, none⟩
  else
    let replicateModel := resolveModel mappings defaultModel (body.model.getD "undefined")
    let prompt := convertMessagesToPrompt (body.messages.getD [])
    match backend replicateModel prompt with
    | .ok (some output) =>
      if body.stream then
        ⟨⟨200, .chunk body.model (strTrim (joinOutput output))⟩, some ⟨replicateModel, prompt⟩⟩
      else
        ⟨⟨200, formatAsOpenAIResponse output body.model⟩, some ⟨replicateModel, prompt⟩⟩
    | .ok none =>
      ⟨⟨500, .errorEnv internalErrorEnv⟩, some ⟨replicateModel, prompt⟩⟩
    | .error msg =>
      if strContains msg "Replicate" then
        ⟨⟨502, .errorEnv upstreamErrorEnv⟩, some ⟨replicateModel, prompt⟩⟩
      else
        ⟨⟨500, .errorEnv internalErrorEnv⟩, some ⟨replicateModel, prompt⟩⟩

/-- `handleChatCompletions` of the simple Node server (`src/index.js`) and
of the minimal worker: no validation; an absent `messages` makes the
`for...of` throw before the backend call; every caught error is answered
with the 500 internal envelope. -/
def handleChatCompletionsSimple (mappings : List (String × String))
    (defaultModel : String) (body : ChatBody) (backend : Backend) :
    HandlerResult :=
  match body.messages with
  | none => ⟨⟨500, .errorEnv internalErrorEnv⟩, none⟩
  | some messages =>
    let replicateModel := resolveModel mappings defaultModel (body.model.getD "undefined")
    let prompt := convertMessagesToPrompt messages
    match backend replicateModel prompt with
    | .ok (some output) =>
      if body.stream then
        ⟨⟨200, .chunk body.model (strTrim (joinOutput output))⟩, some ⟨replicateModel, prompt⟩⟩
      else
        ⟨⟨200, formatAsOpenAIResponse output body.model⟩, some ⟨replicateModel, prompt⟩⟩
    | .ok none =>
      ⟨⟨500, .errorEnv internalErrorEnv⟩, some ⟨replicateModel, prompt⟩⟩
    | .error _ =>
      ⟨⟨500, .errorEnv internalErrorEnv⟩, some ⟨replicateModel, prompt⟩⟩

/-- `handleCompletions` of the logging Node server and of the detailed
worker: validate `!model || !prompt` (400), resolve the model, forward the
caller's prompt verbatim, answer 200 in the legacy text shape, or classify
a caught error by message substring into 502/500. -/
def handleCompletionsLogging (mappings : List (String × String))
    (defaultModel : String) (body : CompletionBody) (backend : Backend) :
    HandlerResult :=
  if completionMissingFields body then
    ⟨⟨400, .errorEnv missingFieldsCompletionError⟩, none⟩
  else
    let replicateModel := resolveModel mappings defaultModel (body.model.getD "undefined")
    let prompt := body.prompt.getD ""
    match backend replicateModel prompt with
    | .ok (some output) =>
      ⟨⟨200, .text body.model (strTrim (joinOutput output))⟩, some ⟨replicateModel, prompt⟩⟩
    | .ok none =>
      ⟨⟨500, .errorEnv internalErrorEnv⟩, some ⟨replicateModel, prompt⟩⟩
    | .error msg =>
      if strContains msg "Replicate" then
        ⟨⟨502, .errorEnv upstreamErrorEnv⟩, some ⟨replicateModel, prompt⟩⟩
      else
        ⟨⟨500, .errorEnv internalErrorEnv⟩, some ⟨replicateModel, prompt⟩⟩

/-- `handleCompletions` of the simple Node server (`src/index.js`): no
validation; an absent `prompt` makes `prompt.substring(0, 200)` throw
before the backend call; every caught error is answered with the 500
internal envelope. -/
def handleCompletionsSimple (mappings : List (String × String))
    (defaultModel : String) (body : CompletionBody) (backend : Backend) :
    HandlerResult :=
  match body.prompt with
  | none => ⟨⟨500, .errorEnv internalErrorEnv⟩, none⟩
  | some prompt =>
    let replicateModel := resolveModel mappings defaultModel (body.model.getD "undefined")
    match backend replicateModel prompt with
    | .ok (some output) =>
      ⟨⟨200, .text body.model (strTrim (joinOutput output))⟩, some ⟨replicateModel, prompt⟩⟩
    | .ok none =>
      ⟨⟨500, .errorEnv internalErrorEnv⟩, some ⟨replicateModel, prompt⟩⟩
    | .error _ =>
      ⟨⟨500, .errorEnv internalErrorEnv⟩, some ⟨replicateModel, prompt⟩⟩

/-! ## Authentication and routing -/

/-- Result of `authenticateApiKey`. -/
inductive AuthResult where
  | ok
  | err (e : ErrorInfo) (statusCode : Nat)
deriving Repr, DecidableEq

/-- `authenticateApiKey` (identical logic in all variants): an unset or
empty `PROXY_API_KEY` answers 500 before any header inspection; a missing
header or one without the `Bearer ` lead answers 401; a wrong key after
stripping the 7-character lead answers 401; otherwise success. -/
def authenticateApiKey (authHeader expectedApiKey : Option String) :
    AuthResult :=
  if !optStrTruthy expectedApiKey then
    .err notConfiguredErrorEnv 500
  else
    match authHeader with
    | none => .err invalidAuthHeaderErrorEnv 401
    | some h =>
      if !strStartsWith h "Bearer " then .err invalidAuthHeaderErrorEnv 401
      else if (⟨h.toList.drop 7⟩ : String) ≠ expectedApiKey.getD "" then
        .err invalidKeyErrorEnv 401
      else .ok

/-- How `handleRequest` / the worker `fetch` dispatches a request. -/
inductive RouteOutcome where
  | cors
  | health
  | authRejected (e : ErrorInfo) (statusCode : Nat)
  | chatCompletions
  | completions
  | models
  | notFound
deriving Repr, DecidableEq

/-- The top-level request dispatcher (identical in all variants): OPTIONS
preflight first, then the unauthenticated `/health` endpoint, then the
authentication gate in front of every `/v1/` path, then the route table. -/
def handleRequest (method pathname : String)
    (authHeader expectedApiKey : Option String) : RouteOutcome :=
  if method = "OPTIONS" then .cors
  else if pathname = "/health" ∧ method = "GET" then .health
  else if strStartsWith pathname "/v1/" then
    match authenticateApiKey authHeader expectedApiKey with
    | .err e s => .authRejected e s
    | .ok =>
      if pathname = "/v1/chat/completions" ∧ method = "POST" then .chatCompletions
      else if pathname = "/v1/completions" ∧ method = "POST" then .completions
      else if pathname = "/v1/models" ∧ method = "GET" then .models
      else .notFound
  else .notFound

/-! ## Helper lemmas -/

theorem string_toList_append (a b : String) : (a ++ b).toList = a.toList ++ b.toList := by
  simp

theorem listLeads_append : ∀ (a b : List Char), listLeads a (a ++ b) = true
  | [], _ => rfl
  | c :: cs, b => by simp [listLeads, listLeads_append cs b]

theorem strContains_split (s p r : String) (h : s = p ++ r) :
    strContains s p = true := by
  subst h
  unfold strContains
  refine List.any_eq_true.mpr ⟨(p ++ r).toList, (List.mem_tails _ _).mpr (List.suffix_refl _), ?_⟩
  rw [string_toList_append]
  exact listLeads_append _ _

theorem pollLoopDetailed_step (result : Prediction) (p : HttpResp)
    (rest : List HttpResp) (w : Nat) (hrun : isRunning result.status = true)
    (hok : respOk p = true) :
    pollLoopDetailed result (p :: rest) w = pollLoopDetailed p.body rest (w + 1) := by
  rw [pollLoopDetailed.eq_def, if_pos hrun]
  simp [hok]

theorem pollLoopDetailed_pollFail (result : Prediction) (p : HttpResp)
    (rest : List HttpResp) (w : Nat) (hrun : isRunning result.status = true)
    (hbad : respOk p = false) :
    pollLoopDetailed result (p :: rest) w =
      (.err ("Replicate polling error: " ++ toString p.status), w + 1) := by
  rw [pollLoopDetailed.eq_def, if_pos hrun]
  simp [hbad]

theorem pollLoopDetailed_succeeded (q : Prediction) (polls : List HttpResp)
    (w : Nat) (hrun : isRunning q.status = false) (hf : q.status ≠ "failed") :
    pollLoopDetailed q polls w = (.output q.output, w) := by
  rw [pollLoopDetailed.eq_def, if_neg (by simp [hrun]), if_neg hf]

theorem pollLoopDetailed_failedStatus (q : Prediction) (polls : List HttpResp)
    (w : Nat) (hrun : isRunning q.status = false) (hf : q.status = "failed") :
    pollLoopDetailed q polls w =
      (.err ("Replicate prediction failed: " ++ q.error), w) := by
  rw [pollLoopDetailed.eq_def, if_neg (by simp [hrun]), if_pos hf]

theorem pollLoopMinimal_step (result : Prediction) (p : HttpResp)
    (rest : List HttpResp) (w : Nat) (hrun : isRunning result.status = true) :
    pollLoopMinimal result (p :: rest) w = pollLoopMinimal p.body rest (w + 1) := by
  rw [pollLoopMinimal.eq_def, if_pos hrun]

theorem pollLoopMinimal_succeeded (q : Prediction) (polls : List HttpResp)
    (w : Nat) (hrun : isRunning q.status = false) (hf : q.status ≠ "failed") :
    pollLoopMinimal q polls w = (.output q.output, w) := by
  rw [pollLoopMinimal.eq_def, if_neg (by simp [hrun]), if_neg hf]

theorem pollLoopMinimal_failedStatus (q : Prediction) (polls : List HttpResp)
    (w : Nat) (hrun : isRunning q.status = false) (hf : q.status = "failed") :
    pollLoopMinimal q polls w =
      (.err ("Replicate prediction failed: " ++ q.error), w) := by
  rw [pollLoopMinimal.eq_def, if_neg (by simp [hrun]), if_pos hf]

theorem pollLoopDetailed_chain (last : HttpResp) (mid : List HttpResp) :
    ∀ (p0 : Prediction) (w : Nat),
      isRunning p0.status = true →
      (∀ r ∈ mid, respOk r = true ∧ isRunning r.body.status = true) →
      respOk last = true →
      pollLoopDetailed p0 (mid ++ [last]) w =
        pollLoopDetailed last.body [] (w + (mid.length + 1)) := by
  induction mid with
  | nil =>
    intro p0 w h0 _ hok
    rw [List.nil_append, pollLoopDetailed_step p0 last [] w h0 hok]
    simp
  | cons r mid ih =>
    intro p0 w h0 hmid hok
    have hr := hmid r (List.mem_cons_self r mid)
    rw [List.cons_append, pollLoopDetailed_step p0 r (mid ++ [last]) w h0 hr.1,
      ih r.body (w + 1) hr.2 (fun x hx => hmid x (List.mem_cons_of_mem r hx)) hok]
    congr 1
    simp only [List.length_cons]
    omega

theorem pollLoopMinimal_chain (last : HttpResp) (mid : List HttpResp) :
    ∀ (p0 : Prediction) (w : Nat),
      isRunning p0.status = true →
      (∀ r ∈ mid, respOk r = true ∧ isRunning r.body.status = true) →
      pollLoopMinimal p0 (mid ++ [last]) w =
        pollLoopMinimal last.body [] (w + (mid.length + 1)) := by
  induction mid with
  | nil =>
    intro p0 w h0 _
    rw [List.nil_append, pollLoopMinimal_step p0 last [] w h0]
    simp
  | cons r mid ih =>
    intro p0 w h0 hmid
    have hr := hmid r (List.mem_cons_self r mid)
    rw [List.cons_append, pollLoopMinimal_step p0 r (mid ++ [last]) w h0,
      ih r.body (w + 1) hr.2 (fun x hx => hmid x (List.mem_cons_of_mem r hx))]
    congr 1
    simp only [List.length_cons]
    omega

/-! ## Claim theorems -/

/-- C1: after a successful (2xx) job submission whose prediction is still
starting/processing, both submit-then-poll invokers wait one fixed
1000 ms interval per re-fetch while the status stays in
{starting, processing}; on `succeeded` they return the job's `output`, and
on `failed` they throw an error carrying the backend's error detail.  The
wait count equals the number of intervening re-fetches, so the status
sequence [starting, processing, succeeded] returns the output after exactly
2 waits (see the witness). -/
theorem invoker_poll_loop_spec (submit : HttpResp) (mid : List HttpResp)
    (last : HttpResp) (hsub : respOk submit = true)
    (h0 : isRunning submit.body.status = true)
    (hmid : ∀ r ∈ mid, respOk r = true ∧ isRunning r.body.status = true)
    (hok : respOk last = true) :
    (last.body.status = "succeeded" →
      callReplicateAPIDetailed submit (mid ++ [last]) =
        (.output last.body.output, mid.length + 1) ∧
      callReplicateAPIMinimal submit (mid ++ [last]) =
        (.output last.body.output, mid.length + 1)) ∧
    (last.body.status = "failed" →
      callReplicateAPIDetailed submit (mid ++ [last]) =
        (.err ("Replicate prediction failed: " ++ last.body.error), mid.length + 1) ∧
      callReplicateAPIMinimal submit (mid ++ [last]) =
        (.err ("Replicate prediction failed: " ++ last.body.error), mid.length + 1)) := by
  have hdet : callReplicateAPIDetailed submit (mid ++ [last]) =
      pollLoopDetailed last.body [] (mid.length + 1) := by
    rw [callReplicateAPIDetailed, if_pos hsub,
      pollLoopDetailed_chain last mid submit.body 0 h0 hmid hok, Nat.zero_add]
  have hmin : callReplicateAPIMinimal submit (mid ++ [last]) =
      pollLoopMinimal last.body [] (mid.length + 1) := by
    rw [callReplicateAPIMinimal, if_pos hsub,
      pollLoopMinimal_chain last mid submit.body 0 h0 hmid, Nat.zero_add]
  constructor
  · intro hs
    have hnr : isRunning last.body.status = false := by rw [hs]; decide
    have hnf : last.body.status ≠ "failed" := by rw [hs]; decide
    rw [hdet, hmin, pollLoopDetailed_succeeded _ _ _ hnr hnf,
      pollLoopMinimal_succeeded _ _ _ hnr hnf]
    exact ⟨rfl, rfl⟩
  · intro hs
    have hnr : isRunning last.body.status = false := by rw [hs]; decide
    rw [hdet, hmin, pollLoopDetailed_failedStatus _ _ _ hnr hs,
      pollLoopMinimal_failedStatus _ _ _ hnr hs]
    exact ⟨rfl, rfl⟩

/-- Witness for C1: the status sequence [starting, processing, succeeded]
with output "X" makes both invokers return "X" after exactly 2 waits. -/
theorem invoker_poll_loop_spec_witness :
    callReplicateAPIDetailed ⟨201, ⟨"p1", "starting", none, ""⟩, ""⟩
        [⟨200, ⟨"p1", "processing", none, ""⟩, ""⟩,
         ⟨200, ⟨"p1", "succeeded", some (.str "X"), ""⟩, ""⟩] =
      (.output (some (.str "X")), 2) ∧
    callReplicateAPIMinimal ⟨201, ⟨"p1", "starting", none, ""⟩, ""⟩
        [⟨200, ⟨"p1", "processing", none, ""⟩, ""⟩,
         ⟨200, ⟨"p1", "succeeded", some (.str "X"), ""⟩, ""⟩] =
      (.output (some (.str "X")), 2) :=
  (invoker_poll_loop_spec ⟨201, ⟨"p1", "starting", none, ""⟩, ""⟩
    [⟨200, ⟨"p1", "processing", none, ""⟩, ""⟩]
    ⟨200, ⟨"p1", "succeeded", some (.str "X"), ""⟩, ""⟩
    (by decide) (by decide) (by decide) (by decide)).1 rfl

/-- C5: the Response Formatter normalises the backend output by
concatenating an ordered list of fragments in order with no separator (or
taking a single string as-is) and trims leading/trailing whitespace before
placing it in the response content; in particular `["a","b","c"]` gives
"abc" and `"  hi there  "` gives "hi there". -/
theorem response_formatter_spec :
    (∀ (fragments : List String) (model : Option String),
      formatAsOpenAIResponse (.arr fragments) model =
        .chat model (strTrim (String.join fragments))) ∧
    (∀ (s : String) (model : Option String),
      formatAsOpenAIResponse (.str s) model = .chat model (strTrim s)) ∧
    formatAsOpenAIResponse (.arr ["a", "b", "c"]) (some "gpt-4") =
      .chat (some "gpt-4") "abc" ∧
    formatAsOpenAIResponse (.str "  hi there  ") (some "gpt-4") =
      .chat (some "gpt-4") "hi there" := by
  refine ⟨fun _ _ => rfl, fun _ _ => rfl, ?_, ?_⟩ <;> decide

theorem lookupMapping_mem :
    ∀ (l : List (String × String)) (m v : String),
      lookupMapping l m = some v → (m, v) ∈ l := by
  intro l
  induction l with
  | nil => intro m v h; simp [lookupMapping] at h
  | cons kv rest ih =>
    intro m v h
    obtain ⟨k, w⟩ := kv
    rw [lookupMapping] at h
    by_cases hk : k = m
    · rw [if_pos hk] at h
      have hw : w = v := by injection h
      rw [← hk, ← hw]
      exact List.mem_cons_self _ _
    · rw [if_neg hk] at h
      exact List.mem_cons_of_mem _ (ih m v h)

/-- C7: the Model Resolver is total (a plain function): an identifier
present in the mapping resolves to its mapped value, and an absent
identifier resolves to the configured default; no failure path exists.
The hypothesis that mapped values are non-empty (true of the shipped
mapping, see the witness) is what makes JavaScript's `||` fallback agree
with plain lookup. -/
theorem model_resolver_total (mappings : List (String × String))
    (defaultModel m : String) (hvals : ∀ p ∈ mappings, p.2 ≠ "") :
    (∀ v, lookupMapping mappings m = some v →
      resolveModel mappings defaultModel m = v) ∧
    (lookupMapping mappings m = none →
      resolveModel mappings defaultModel m = defaultModel) := by
  constructor
  · intro v hv
    have hne : v ≠ "" := hvals (m, v) (lookupMapping_mem mappings m v hv)
    unfold resolveModel
    rw [hv]
    exact if_neg hne
  · intro hv
    unfold resolveModel
    rw [hv]

/-- Witness for C7 on the shipped mapping: a mapped identifier resolves to
its mapped backend model, an unmapped one to the default. -/
theorem model_resolver_total_witness :
    resolveModel MODEL_MAPPINGS DEFAULT_MODEL "gpt-4" = "meta/llama-2-70b-chat" ∧
    resolveModel MODEL_MAPPINGS DEFAULT_MODEL "some-unknown-model" =
      "meta/llama-2-7b-chat" := by
  constructor
  · exact (model_resolver_total MODEL_MAPPINGS DEFAULT_MODEL "gpt-4"
      (by decide)).1 "meta/llama-2-70b-chat" (by decide)
  · exact ((model_resolver_total MODEL_MAPPINGS DEFAULT_MODEL "some-unknown-model"
      (by decide)).2 (by decide)).trans rfl

/-- C9: an empty (zero-length) message list passes the chat validation —
only an absent `messages` value is falsy — the Prompt Compiler maps the
empty list to exactly "Assistant: ", and the request proceeds to invoke
the backend with that prompt on the resolved model. -/
theorem empty_messages_passes_validation (mappings : List (String × String))
    (defaultModel m : String) (stream : Bool) (backend : Backend)
    (hm : m ≠ "") :
    chatMissingFields ⟨some m, some [], stream⟩ = false ∧
    convertMessagesToPrompt [] = "Assistant: " ∧
    (handleChatCompletionsLogging mappings defaultModel
        ⟨some m, some [], stream⟩ backend).call =
      some ⟨resolveModel mappings defaultModel m, "Assistant: "⟩ := by
  have hmf : chatMissingFields ⟨some m, some [], stream⟩ = false := by
    simp [chatMissingFields, optStrTruthy, optMessagesTruthy, hm]
  refine ⟨hmf, rfl, ?_⟩
  have hpr : convertMessagesToPrompt [] = "Assistant: " := rfl
  unfold handleChatCompletionsLogging
  rw [hmf]
  simp only [Bool.false_eq_true, if_false, Option.getD_some, hpr]
  split
  · split <;> rfl
  · rfl
  · split <;> rfl

/-- Witness for C9 at a concrete request. -/
theorem empty_messages_passes_validation_witness :
    chatMissingFields ⟨some "gpt-4", some [], false⟩ = false ∧
    convertMessagesToPrompt [] = "Assistant: " ∧
    (handleChatCompletionsLogging MODEL_MAPPINGS DEFAULT_MODEL
        ⟨some "gpt-4", some [], false⟩
        (fun _ _ => .ok (some (.str "hello")))).call =
      some ⟨resolveModel MODEL_MAPPINGS DEFAULT_MODEL "gpt-4", "Assistant: "⟩ :=
  empty_messages_passes_validation MODEL_MAPPINGS DEFAULT_MODEL "gpt-4" false
    (fun _ _ => .ok (some (.str "hello"))) (by decide)

/-- C6: every successful response — chat completion, chat completion chunk
(stream), or legacy text completion, in both the simple and the logging
variants — echoes the exact original inbound `model` field, never the
resolved backend identifier, even when the two differ. -/
theorem model_echo_invariant (mappings : List (String × String))
    (defaultModel : String) (body : ChatBody) (cbody : CompletionBody)
    (out : ReplicateOutput) (msgs : List Message) (p : String)
    (hmsgs : body.messages = some msgs)
    (hcf : chatMissingFields body = false)
    (hp : cbody.prompt = some p)
    (hcf2 : completionMissingFields cbody = false) :
    payloadModel (handleChatCompletionsSimple mappings defaultModel body
        (fun _ _ => .ok (some out))).response.payload = some body.model ∧
    payloadModel (handleChatCompletionsLogging mappings defaultModel body
        (fun _ _ => .ok (some out))).response.payload = some body.model ∧
    payloadModel (handleCompletionsSimple mappings defaultModel cbody
        (fun _ _ => .ok (some out))).response.payload = some cbody.model ∧
    payloadModel (handleCompletionsLogging mappings defaultModel cbody
        (fun _ _ => .ok (some out))).response.payload = some cbody.model ∧
    (∀ rm, body.model = some rm → resolveModel mappings defaultModel rm ≠ rm →
      payloadModel (handleChatCompletionsSimple mappings defaultModel body
        (fun _ _ => .ok (some out))).response.payload ≠
        some (some (resolveModel mappings defaultModel rm))) := by
  have h1 : payloadModel (handleChatCompletionsSimple mappings defaultModel body
      (fun _ _ => .ok (some out))).response.payload = some body.model := by
    unfold handleChatCompletionsSimple
    rw [hmsgs]
    cases hs : body.stream <;>
      simp [hs, payloadModel, formatAsOpenAIResponse]
  refine ⟨h1, ?_, ?_, ?_, ?_⟩
  · unfold handleChatCompletionsLogging
    rw [hcf]
    cases hs : body.stream <;>
      simp [hs, payloadModel, formatAsOpenAIResponse]
  · unfold handleCompletionsSimple
    rw [hp]
    simp [payloadModel]
  · unfold handleCompletionsLogging
    rw [hcf2]
    simp [payloadModel]
  · intro rm hrm hne
    rw [h1, hrm]
    simp only [ne_eq, Option.some.injEq]
    exact fun h => hne h.symm

/-- Witness for C6: a request for "gpt-4" resolves to the different backend
identifier "meta/llama-2-70b-chat" yet every response echoes "gpt-4". -/
theorem model_echo_invariant_witness :
    payloadModel (handleChatCompletionsSimple MODEL_MAPPINGS DEFAULT_MODEL
        ⟨some "gpt-4", some [⟨"user", "hi"⟩], false⟩
        (fun _ _ => .ok (some (.str "hello")))).response.payload =
      some (some "gpt-4") ∧
    payloadModel (handleCompletionsLogging MODEL_MAPPINGS DEFAULT_MODEL
        ⟨some "gpt-4", some "hi"⟩
        (fun _ _ => .ok (some (.str "hello")))).response.payload =
      some (some "gpt-4") ∧
    payloadModel (handleChatCompletionsSimple MODEL_MAPPINGS DEFAULT_MODEL
        ⟨some "gpt-4", some [⟨"user", "hi"⟩], false⟩
        (fun _ _ => .ok (some (.str "hello")))).response.payload ≠
      some (some (resolveModel MODEL_MAPPINGS DEFAULT_MODEL "gpt-4")) := by
  have h := model_echo_invariant MODEL_MAPPINGS DEFAULT_MODEL
    ⟨some "gpt-4", some [⟨"user", "hi"⟩], false⟩ ⟨some "gpt-4", some "hi"⟩
    (.str "hello") [⟨"user", "hi"⟩] "hi" rfl (by decide) rfl (by decide)
  exact ⟨h.1, h.2.2.2.1, h.2.2.2.2 "gpt-4" rfl (by decide)⟩

/-- C10: when the proxy's shared secret is not configured (unset or empty
`PROXY_API_KEY`), every non-preflight request to a `/v1/` path is rejected
with the 500 configuration_error/missing_api_key envelope, whatever the
Authorization header carries — the unconfigured-secret check precedes the
header checks, so even a well-formed Bearer token receives 500, not 401. -/
theorem unconfigured_key_precedence (method pathname : String)
    (authHeader expectedApiKey : Option String)
    (hm : method ≠ "OPTIONS") (hv : strStartsWith pathname "/v1/" = true)
    (hk : optStrTruthy expectedApiKey = false) :
    handleRequest method pathname authHeader expectedApiKey =
      .authRejected notConfiguredErrorEnv 500 := by
  have hh : pathname ≠ "/health" := by
    intro h
    rw [h] at hv
    exact absurd hv (by decide)
  unfold handleRequest authenticateApiKey
  rw [if_neg hm, if_neg (fun h => hh h.1), if_pos hv, hk]
  simp

/-- Witness for C10: a POST to the chat endpoint with a well-formed Bearer
token is still rejected with the 500 configuration envelope when no key is
configured. -/
theorem unconfigured_key_precedence_witness :
    handleRequest "POST" "/v1/chat/completions" (some "Bearer secret-token")
      none = .authRejected notConfiguredErrorEnv 500 :=
  unconfigured_key_precedence "POST" "/v1/chat/completions"
    (some "Bearer secret-token") none (by decide) (by decide) (by decide)

/-! ## Error taxonomy claims (C2, C3, C8) -/

theorem repl_api_msg (x : String) :
    "Replicate API error: " ++ x = "Replicate" ++ (" API error: " ++ x) := by
  have h : ("Replicate" : String) ++ " API error: " = "Replicate API error: " := by
    decide
  rw [← h, string_append_assoc]

theorem repl_poll_msg (x : String) :
    "Replicate polling error: " ++ x =
      "Replicate" ++ (" polling error: " ++ x) := by
  have h : ("Replicate" : String) ++ " polling error: " =
      "Replicate polling error: " := by decide
  rw [← h, string_append_assoc]

theorem repl_failed_msg (x : String) :
    "Replicate prediction failed: " ++ x =
      "Replicate" ++ (" prediction failed: " ++ x) := by
  have h : ("Replicate" : String) ++ " prediction failed: " =
      "Replicate prediction failed: " := by decide
  rw [← h, string_append_assoc]

theorem pollLoopDetailed_err_contains :
    ∀ (polls : List HttpResp) (result : Prediction) (w : Nat) (e : String)
      (w' : Nat), pollLoopDetailed result polls w = (.err e, w') →
      strContains e "Replicate" = true := by
  intro polls
  induction polls with
  | nil =>
    intro result w e w' h
    by_cases hrun : isRunning result.status = true
    · rw [pollLoopDetailed.eq_def, if_pos hrun] at h
      simp at h
    · by_cases hf : result.status = "failed"
      · rw [pollLoopDetailed_failedStatus _ _ _ (eq_false_of_ne_true hrun) hf] at h
        have he : e = "Replicate prediction failed: " ++ result.error := by
          injection h with h1 h2
          injection h1 with h3
          exact h3.symm
        exact strContains_split _ _ _ (he.trans (repl_failed_msg _))
      · rw [pollLoopDetailed_succeeded _ _ _ (eq_false_of_ne_true hrun) hf] at h
        simp at h
  | cons p rest ih =>
    intro result w e w' h
    by_cases hrun : isRunning result.status = true
    · by_cases hok : respOk p = true
      · rw [pollLoopDetailed_step _ _ _ _ hrun hok] at h
        exact ih p.body (w + 1) e w' h
      · rw [pollLoopDetailed_pollFail _ _ _ _ hrun (eq_false_of_ne_true hok)] at h
        have he : e = "Replicate polling error: " ++ toString p.status := by
          injection h with h1 h2
          injection h1 with h3
          exact h3.symm
        exact strContains_split _ _ _ (he.trans (repl_poll_msg _))
    · by_cases hf : result.status = "failed"
      · rw [pollLoopDetailed_failedStatus _ _ _ (eq_false_of_ne_true hrun) hf] at h
        have he : e = "Replicate prediction failed: " ++ result.error := by
          injection h with h1 h2
          injection h1 with h3
          exact h3.symm
        exact strContains_split _ _ _ (he.trans (repl_failed_msg _))
      · rw [pollLoopDetailed_succeeded _ _ _ (eq_false_of_ne_true hrun) hf] at h
        simp at h

theorem callReplicateAPIDetailed_err_contains (submit : HttpResp)
    (polls : List HttpResp) (e : String) (w : Nat)
    (h : callReplicateAPIDetailed submit polls = (.err e, w)) :
    strContains e "Replicate" = true := by
  by_cases hok : respOk submit = true
  · rw [callReplicateAPIDetailed, if_pos hok] at h
    exact pollLoopDetailed_err_contains polls submit.body 0 e w h
  · rw [callReplicateAPIDetailed, if_neg hok] at h
    have he : e = "Replicate API error: " ++ toString submit.status ++ " - " ++
        submit.text := by
      injection h with h1 h2
      injection h1 with h3
      exact h3.symm
    refine strContains_split _ "Replicate"
      ((" API error: " ++ toString submit.status ++ " - ") ++ submit.text) ?_
    rw [he, repl_api_msg (toString submit.status)]
    simp only [string_append_assoc]

/-- C2 counterexample: in the simple Node variant (`src/index.js`), a
backend failure — here an error whose message is exactly the backend
invoker's "Replicate prediction failed: boom" — is answered with the 500
server_error/internal_error envelope, not the 502
upstream_error/replicate_error envelope the claim requires. -/
theorem error_classification_counterexample :
    (handleChatCompletionsSimple MODEL_MAPPINGS DEFAULT_MODEL
        ⟨some "gpt-4", some [⟨"user", "hi"⟩], false⟩
        (fun _ _ => .error "Replicate prediction failed: boom")).response =
      ⟨500, .errorEnv internalErrorEnv⟩ := by
  decide

/-- C2 amended: in the logging variants an error whose message contains
"Replicate" (which includes every error the submit-then-poll invoker can
raise, last conjunct) yields upstream_error/replicate_error/502 and any
other error yields server_error/internal_error/500; in the simple variants
every caught error yields the 500 internal envelope; and in the logging
chat handler the outbound response is always exactly one of: the 400
validation envelope, a 200 success, the 502 upstream envelope, or the 500
internal envelope — no error escapes unformatted. -/
theorem error_classification_amended :
    (∀ (mappings : List (String × String)) (dm : String) (body : ChatBody)
      (msg : String), chatMissingFields body = false →
      strContains msg "Replicate" = true →
      (handleChatCompletionsLogging mappings dm body
        (fun _ _ => .error msg)).response = ⟨502, .errorEnv upstreamErrorEnv⟩) ∧
    (∀ (mappings : List (String × String)) (dm : String) (body : ChatBody)
      (msg : String), chatMissingFields body = false →
      strContains msg "Replicate" = false →
      (handleChatCompletionsLogging mappings dm body
        (fun _ _ => .error msg)).response = ⟨500, .errorEnv internalErrorEnv⟩) ∧
    (∀ (mappings : List (String × String)) (dm : String)
      (body : CompletionBody) (msg : String),
      completionMissingFields body = false →
      strContains msg "Replicate" = true →
      (handleCompletionsLogging mappings dm body
        (fun _ _ => .error msg)).response = ⟨502, .errorEnv upstreamErrorEnv⟩) ∧
    (∀ (mappings : List (String × String)) (dm : String)
      (body : CompletionBody) (msg : String),
      completionMissingFields body = false →
      strContains msg "Replicate" = false →
      (handleCompletionsLogging mappings dm body
        (fun _ _ => .error msg)).response = ⟨500, .errorEnv internalErrorEnv⟩) ∧
    (∀ (mappings : List (String × String)) (dm : String) (body : ChatBody)
      (msg : String) (msgs : List Message), body.messages = some msgs →
      (handleChatCompletionsSimple mappings dm body
        (fun _ _ => .error msg)).response = ⟨500, .errorEnv internalErrorEnv⟩) ∧
    (∀ (mappings : List (String × String)) (dm : String)
      (body : CompletionBody) (msg p : String), body.prompt = some p →
      (handleCompletionsSimple mappings dm body
        (fun _ _ => .error msg)).response = ⟨500, .errorEnv internalErrorEnv⟩) ∧
    (∀ (mappings : List (String × String)) (dm : String) (body : ChatBody)
      (backend : Backend),
      (handleChatCompletionsLogging mappings dm body backend).response =
          ⟨400, .errorEnv missingFieldsChatError⟩ ∨
      (handleChatCompletionsLogging mappings dm body backend).response.status
          = 200 ∨
      (handleChatCompletionsLogging mappings dm body backend).response =
          ⟨502, .errorEnv upstreamErrorEnv⟩ ∨
      (handleChatCompletionsLogging mappings dm body backend).response =
          ⟨500, .errorEnv internalErrorEnv⟩) ∧
    (∀ (submit : HttpResp) (polls : List HttpResp) (e : String) (w : Nat),
      callReplicateAPIDetailed submit polls = (.err e, w) →
      strContains e "Replicate" = true) := by
  refine ⟨?_, ?_, ?_, ?_, ?_, ?_, ?_,
    fun s p e w h => callReplicateAPIDetailed_err_contains s p e w h⟩
  · intro mappings dm body msg h1 h2
    simp [handleChatCompletionsLogging, h1, h2]
  · intro mappings dm body msg h1 h2
    simp [handleChatCompletionsLogging, h1, h2]
  · intro mappings dm body msg h1 h2
    simp [handleCompletionsLogging, h1, h2]
  · intro mappings dm body msg h1 h2
    simp [handleCompletionsLogging, h1, h2]
  · intro mappings dm body msg msgs h
    simp [handleChatCompletionsSimple, h]
  · intro mappings dm body msg p h
    simp [handleCompletionsSimple, h]
  · intro mappings dm body backend
    by_cases hv : chatMissingFields body = true
    · left
      simp [handleChatCompletionsLogging, hv]
    · have hv' : chatMissingFields body = false := eq_false_of_ne_true hv
      rcases hb : backend (resolveModel mappings dm (body.model.getD "undefined"))
          (convertMessagesToPrompt (body.messages.getD [])) with msg | o
      · by_cases hc : strContains msg "Replicate" = true
        · right; right; left
          simp [handleChatCompletionsLogging, hv', hb, hc]
        · right; right; right
          simp [handleChatCompletionsLogging, hv', hb, eq_false_of_ne_true hc]
      · rcases o with _ | out
        · right; right; right
          simp [handleChatCompletionsLogging, hv', hb]
        · right; left
          cases hs : body.stream <;>
            simp [handleChatCompletionsLogging, hv', hb, hs]

/-- Witness for the amended C2: a backend rejection with the invoker's own
"Replicate..." message is classified 502 by the logging chat handler. -/
theorem error_classification_amended_witness :
    (handleChatCompletionsLogging MODEL_MAPPINGS DEFAULT_MODEL
        ⟨some "gpt-4", some [⟨"user", "hi"⟩], false⟩
        (fun _ _ => .error "Replicate prediction failed: boom")).response =
      ⟨502, .errorEnv upstreamErrorEnv⟩ :=
  error_classification_amended.1 MODEL_MAPPINGS DEFAULT_MODEL
    ⟨some "gpt-4", some [⟨"user", "hi"⟩], false⟩
    "Replicate prediction failed: boom" (by decide) (by decide)

/-- C3 counterexample: a chat request with an empty (zero-length) message
list — which the claim says must be rejected with the 400 envelope and no
backend call — is instead accepted by the logging variants: the backend is
invoked and a 200 response is returned. -/
theorem validation_counterexample :
    (handleChatCompletionsLogging MODEL_MAPPINGS DEFAULT_MODEL
        ⟨some "gpt-4", some [], false⟩
        (fun _ _ => .ok (some (.str "ok")))).response =
      ⟨200, .chat (some "gpt-4") "ok"⟩ ∧
    (handleChatCompletionsLogging MODEL_MAPPINGS DEFAULT_MODEL
        ⟨some "gpt-4", some [], false⟩
        (fun _ _ => .ok (some (.str "ok")))).call =
      some ⟨"meta/llama-2-70b-chat", "Assistant: "⟩ := by
  constructor <;> decide

/-- C3 amended: in the logging variants a chat request is rejected exactly
when `model` is absent or empty or `messages` is absent (an empty message
list passes), and a legacy request exactly when `model` or `prompt` is
absent or empty; each rejection is the 400 missing_required_fields envelope
with no backend call.  The simple variants perform no validation at all: a
chat request without `messages` (resp. a legacy request without `prompt`)
throws inside the handler before any backend call and is answered with the
500 internal envelope. -/
theorem validation_amended :
    (∀ (b : ChatBody), chatMissingFields b = true ↔
        (b.model = none ∨ b.model = some "" ∨ b.messages = none)) ∧
    (∀ (b : CompletionBody), completionMissingFields b = true ↔
        (b.model = none ∨ b.model = some "" ∨ b.prompt = none ∨
          b.prompt = some "")) ∧
    (∀ (mappings : List (String × String)) (dm : String) (b : ChatBody)
      (backend : Backend), chatMissingFields b = true →
      handleChatCompletionsLogging mappings dm b backend =
        ⟨⟨400, .errorEnv missingFieldsChatError⟩, none⟩) ∧
    (∀ (mappings : List (String × String)) (dm : String) (b : CompletionBody)
      (backend : Backend), completionMissingFields b = true →
      handleCompletionsLogging mappings dm b backend =
        ⟨⟨400, .errorEnv missingFieldsCompletionError⟩, none⟩) ∧
    (∀ (mappings : List (String × String)) (dm : String) (b : ChatBody)
      (backend : Backend), b.messages = none →
      handleChatCompletionsSimple mappings dm b backend =
        ⟨⟨500, .errorEnv internalErrorEnv⟩, none⟩) ∧
    (∀ (mappings : List (String × String)) (dm : String) (b : CompletionBody)
      (backend : Backend), b.prompt = none →
      handleCompletionsSimple mappings dm b backend =
        ⟨⟨500, .errorEnv internalErrorEnv⟩, none⟩) := by
  refine ⟨?_, ?_, ?_, ?_, ?_, ?_⟩
  · intro b
    obtain ⟨mo, ms, st⟩ := b
    rcases mo with _ | s
    · simp [chatMissingFields, optStrTruthy, optMessagesTruthy]
    · rcases ms with _ | l
      · simp [chatMissingFields, optStrTruthy, optMessagesTruthy]
      · simp [chatMissingFields, optStrTruthy, optMessagesTruthy]
  · intro b
    obtain ⟨mo, pr⟩ := b
    rcases mo with _ | s
    · simp [completionMissingFields, optStrTruthy]
    · rcases pr with _ | p
      · simp [completionMissingFields, optStrTruthy]
      · simp [completionMissingFields, optStrTruthy]
  · intro mappings dm b backend h
    simp [handleChatCompletionsLogging, h]
  · intro mappings dm b backend h
    simp [handleCompletionsLogging, h]
  · intro mappings dm b backend h
    simp [handleChatCompletionsSimple, h]
  · intro mappings dm b backend h
    simp [handleCompletionsSimple, h]

/-- Witness for the amended C3: a chat request without a model is rejected
with the 400 envelope and no backend call. -/
theorem validation_amended_witness :
    handleChatCompletionsLogging MODEL_MAPPINGS DEFAULT_MODEL
        ⟨none, some [⟨"user", "hi"⟩], false⟩
        (fun _ _ => .ok (some (.str "ok"))) =
      ⟨⟨400, .errorEnv missingFieldsChatError⟩, none⟩ :=
  validation_amended.2.2.1 MODEL_MAPPINGS DEFAULT_MODEL
    ⟨none, some [⟨"user", "hi"⟩], false⟩
    (fun _ _ => .ok (some (.str "ok"))) (by decide)

/-- C8 counterexample: in the minimal worker, a non-2xx poll response does
NOT fail the request — its parsed JSON body (here an error body whose
`status` field is absent) silently becomes the next prediction state, the
loop exits, and the invoker returns the (absent) output instead of
throwing a backend-request error. -/
theorem poll_error_counterexample :
    callReplicateAPIMinimal ⟨201, ⟨"p1", "starting", none, ""⟩, ""⟩
        [⟨500, ⟨"", "", none, ""⟩, ""⟩] = (.output none, 1) := by
  decide

/-- C8 amended: a non-2xx submission response is fatal in both
submit-then-poll variants; a non-2xx poll response is fatal — and the
remaining poll stream is discarded, i.e. never retried — only in the
detailed worker, while the minimal worker ignores the poll response's HTTP
status entirely and treats its parsed body as the next job state. -/
theorem poll_error_amended :
    (∀ (submit : HttpResp) (polls : List HttpResp), respOk submit = false →
      callReplicateAPIDetailed submit polls =
        (.err ("Replicate API error: " ++ toString submit.status ++ " - " ++
          submit.text), 0) ∧
      callReplicateAPIMinimal submit polls =
        (.err ("Replicate API error: " ++ toString submit.status), 0)) ∧
    (∀ (p0 : Prediction) (bad : HttpResp) (rest : List HttpResp) (w : Nat),
      isRunning p0.status = true → respOk bad = false →
      pollLoopDetailed p0 (bad :: rest) w =
        (.err ("Replicate polling error: " ++ toString bad.status), w + 1)) ∧
    (∀ (p0 : Prediction) (bad : HttpResp) (rest : List HttpResp) (w : Nat),
      isRunning p0.status = true →
      pollLoopMinimal p0 (bad :: rest) w = pollLoopMinimal bad.body rest (w + 1)) := by
  refine ⟨?_, ?_, ?_⟩
  · intro submit polls h
    constructor
    · rw [callReplicateAPIDetailed, if_neg (by simp [h])]
    · rw [callReplicateAPIMinimal, if_neg (by simp [h])]
  · intro p0 bad rest w h1 h2
    exact pollLoopDetailed_pollFail p0 bad rest w h1 h2
  · intro p0 bad rest w h1
    exact pollLoopMinimal_step p0 bad rest w h1

/-- Witness for the amended C8: a 500 submission response makes both
invokers throw their backend-request error immediately. -/
theorem poll_error_amended_witness :
    callReplicateAPIDetailed ⟨500, ⟨"", "", none, ""⟩, "boom"⟩ [] =
      (.err "Replicate API error: 500 - boom", 0) ∧
    callReplicateAPIMinimal ⟨500, ⟨"", "", none, ""⟩, "boom"⟩ [] =
      (.err "Replicate API error: 500", 0) := by
  have h := poll_error_amended.1 ⟨500, ⟨"", "", none, ""⟩, "boom"⟩ [] (by decide)
  exact ⟨h.1.trans (by decide), h.2.trans (by decide)⟩

end ReplicateProxy
